import Mathlib

/-!
Shallow embedding of the voicemail-main session finite state machine
(lib/fsm.js, machina-based). The machina mechanics used by the source
(transition with exit/entry handlers, handle with per-state action tables
and the catch-all entry of the done state, deferUntilTransition replay on
entering the target state) are embedded explicitly. Asynchronous
operations (channel.answer, auth.init, auth.authenticate,
reader.submitFolder) are modelled as pending-operation counters whose
completions arrive as external events, exactly as the promise
continuations in the source run when the underlying operation settles.
-/

namespace VmFsm

/-- The states of the machina state machine in fsm.js. -/
inductive St
  | init
  | auth
  | waitingForAuth
  | ready
  | changingFolder
  | done
deriving DecidableEq, Repr

/-- Action names appearing as handler keys in the per-state tables of
fsm.js and as action values in the input configuration. -/
inductive Action
  | first
  | replay
  | next
  | prev
  | delete
  | previousMenu
  | repeatMenu
  | changeFolder
  | submit
  | authenticate
deriving DecidableEq, Repr

/-- Operations invoked on the mailbox reader handle, recorded in the
order the source invokes them (submitFolder keeps its option argument). -/
inductive ReaderOp
  | first
  | replay
  | next
  | prev
  | delete
  | changeFolder
  | submitFolder (opt : String)
  | previousMenu
  | repeatMenu
deriving DecidableEq, Repr

/-- Regular expressions occurring in the input configuration
(tests.js getMockConfig uses the patterns for four digits and one digit,
both instances of a digit-run pattern). -/
inductive RePat
  | digits (n : Nat)
deriving DecidableEq, Repr

/-- JavaScript digit character class test. -/
def isDigitCh (c : Char) : Bool := ('0' ≤ c && c ≤ '9')

/-- There is a run of n consecutive digit characters somewhere in the list:
the semantics of the unanchored JavaScript test input.match(new RegExp(p))
for the pattern of n digits. -/
def digitRun (n : Nat) : List Char → Bool
  | [] => n == 0
  | c :: rest =>
      (((c :: rest).take n).length == n && ((c :: rest).take n).all isDigitCh)
      || digitRun n rest

/-- Unanchored JavaScript match semantics: input.match(regex) is non-null. -/
def jsMatch : RePat → String → Bool
  | .digits n, s => digitRun n s.data

/-- Modelled from the spec: the entire buffer content matches the pattern
(anchored whole-string match), the resolution rule the specification
states for the pattern rule. Used only to compare the specified resolver
with the one the source implements. -/
def entireMatch : RePat → String → Bool
  | .digits n, s => s.data.length == n && s.data.all isDigitCh

/-- One per-state entry of the input configuration
(config.getAppConfig().inputs.mailboxReader): an optional regex rule
(the regex and action fields) and the remaining literal keys of the
object, looked up by the joined buffer string. -/
structure GrammarEntry where
  regex : Option (RePat × Action)
  literal : String → Option Action

/-- The full input configuration: an optional entry per state name. -/
def Grammar := St → Option GrammarEntry

/-- The session state: the machina fsm instance fields together with the
observable interactions with the channel, auth service and reader. -/
structure Session where
  /-- machina current state -/
  state : St
  /-- this.buffer, the accumulated dtmf digits -/
  buffer : List Char
  /-- this.hungup -/
  hungup : Bool
  /-- the StasisEnd listener is attached (this.currentHangupHandler) -/
  hangupSub : Bool
  /-- the ChannelDtmfReceived listener is attached (this.currentDtmfHandler) -/
  dtmfSub : Bool
  /-- channel.answer was requested and its promise has not settled -/
  pendingAnswer : Bool
  /-- auth.init calls in flight -/
  pendingInit : Nat
  /-- auth.authenticate calls in flight -/
  pendingVerify : Nat
  /-- reader.submitFolder calls in flight -/
  pendingSubmit : Nat
  /-- this.mailbox has been assigned -/
  mailbox : Bool
  /-- this.reader has been assigned -/
  reader : Bool
  /-- number of dependencies.mailbox.createReader calls -/
  readerCreations : Nat
  /-- number of this.hangup() invocations (hangup coordinator) -/
  hangupRequests : Nat
  /-- machina deferUntilTransition queue entries, each a handled
  (action, argument) pair waiting for the waitingForAuth state -/
  deferred : List (Action × String)
  /-- passwords passed to auth.authenticate, in call order -/
  verifyCalls : List String
  /-- reader operations invoked, in call order -/
  readerOps : List ReaderOp
deriving DecidableEq, Repr

/-- machina exit handlers: the _onExit handlers of waitingForAuth, ready
and changingFolder clear the buffer; the other states have none. -/
def doExit (s : Session) : Session :=
  match s.state with
  | .waitingForAuth | .ready | .changingFolder => { s with buffer := [] }
  | _ => s

/-- machina entry handlers, run with the state field already set to the
new state: init attaches both listeners, clears the buffer and requests
answer; auth creates an auth context and requests auth.init; done
detaches both listeners; the remaining entry handlers only log. -/
def doEnter (s : Session) : Session :=
  match s.state with
  | .init =>
      { s with buffer := [], hangupSub := true, dtmfSub := true,
               pendingAnswer := true }
  | .auth => { s with pendingInit := s.pendingInit + 1 }
  | .done => { s with hangupSub := false, dtmfSub := false }
  | _ => s

/-- machina queue replay on entering waitingForAuth: every queued pair is
removed and re-handled in order in the new state; the waitingForAuth
table handles authenticate (starting a verification with the stored
argument) and has no handler for any other action, so the replay amounts
to one verification request per queued authenticate pair. -/
def drain (s : Session) : Session :=
  { s with deferred := [],
           pendingVerify := s.pendingVerify +
             (s.deferred.filter (fun p => p.1 == Action.authenticate)).length,
           verifyCalls := s.verifyCalls ++
             ((s.deferred.filter (fun p => p.1 == Action.authenticate)).map
               (fun p => p.2)) }

/-- machina transition: a no-op when the target equals the current state;
otherwise run the exit handler, set the state, run the entry handler and
replay queued pairs whose target is the new state (only waitingForAuth
is ever named by deferUntilTransition in the source). -/
def transition (s : Session) (t : St) : Session :=
  if s.state = t then s
  else
    let s2 := doEnter { doExit s with state := t }
    if t = St.waitingForAuth then drain s2 else s2

/-- Record a reader operation. -/
def pushOp (s : Session) (op : ReaderOp) : Session :=
  { s with readerOps := s.readerOps ++ [op] }

/-- machina handle: look up the action in the current state's table. The
init state has no action handlers; auth defers authenticate until
waitingForAuth; waitingForAuth starts a verification; ready dispatches
reader operations and changeFolder transitions; changingFolder submits
the folder option asynchronously, previousMenu transitions back and
repeatMenu repeats; done catches every action with its star handler,
which only logs. Actions with no handler raise machina's nohandler
event, which nothing listens to. -/
def handle (s : Session) (act : Action) (arg : String) : Session :=
  match s.state, act with
  | .auth, .authenticate =>
      { s with deferred := s.deferred ++ [(Action.authenticate, arg)] }
  | .waitingForAuth, .authenticate =>
      { s with pendingVerify := s.pendingVerify + 1,
               verifyCalls := s.verifyCalls ++ [arg] }
  | .ready, .first => pushOp s .first
  | .ready, .replay => pushOp s .replay
  | .ready, .next => pushOp s .next
  | .ready, .prev => pushOp s .prev
  | .ready, .delete => pushOp s .delete
  | .ready, .previousMenu => pushOp s .previousMenu
  | .ready, .repeatMenu => pushOp s .repeatMenu
  | .ready, .changeFolder => transition (pushOp s .changeFolder) .changingFolder
  | .changingFolder, .submit =>
      { pushOp s (.submitFolder arg) with pendingSubmit := s.pendingSubmit + 1 }
  | .changingFolder, .previousMenu => transition (pushOp s .previousMenu) .ready
  | .changingFolder, .repeatMenu => pushOp s .repeatMenu
  | _, _ => s

/-- The resolution step of the dtmf handler of fsm.js: the regex rule
fires when the unanchored JavaScript match on the joined buffer succeeds,
otherwise the joined buffer is looked up as a literal key. -/
def resolveAct (ent : GrammarEntry) (input : String) : Option Action :=
  match ent.regex with
  | some (p, a) => if jsMatch p input then some a else ent.literal input
  | none => ent.literal input

/-- The dtmf handler of fsm.js: look up the configuration entry for the
current state; if absent, do nothing; otherwise push the digit, join the
buffer, resolve an action, and when an action resolved clear the buffer
and handle the action with the joined input. -/
def dtmfHandler (g : Grammar) (s : Session) (d : Char) : Session :=
  match g s.state with
  | none => s
  | some ent =>
      match resolveAct ent ⟨s.buffer ++ [d]⟩ with
      | none => { s with buffer := s.buffer ++ [d] }
      | some a => handle { s with buffer := [] } a ⟨s.buffer ++ [d]⟩

/-- External events a session observes: channel events (a dtmf digit and
the StasisEnd hangup notification, delivered only while the matching
listener is attached; StasisEnd was registered with once, so delivery
detaches it) and the settlements of the asynchronous operations, whose
continuations in the source run exactly as embedded here. -/
inductive Ev
  | dtmf (d : Char)
  | stasisEnd
  | answerOk
  | answerFail
  | initOk
  | initFail
  | verifyOk
  | verifyInvalid
  | verifyOther
  | submitOk
  | submitFail
deriving DecidableEq, Repr

/-- One event step of a session. Settlement events of operations with
nothing in flight cannot occur and are identity. -/
def step (g : Grammar) (s : Session) (e : Ev) : Session :=
  match e with
  | .dtmf d => if s.dtmfSub then dtmfHandler g s d else s
  | .stasisEnd =>
      if s.hangupSub then
        transition { s with hangupSub := false, hungup := true } .done
      else s
  | .answerOk =>
      if s.pendingAnswer then
        transition { s with pendingAnswer := false } .auth
      else s
  | .answerFail =>
      if s.pendingAnswer then
        transition { s with pendingAnswer := false } .done
      else s
  | .initOk =>
      if 0 < s.pendingInit then
        transition { s with pendingInit := s.pendingInit - 1, mailbox := true }
          .waitingForAuth
      else s
  | .initFail =>
      if 0 < s.pendingInit then
        { s with pendingInit := s.pendingInit - 1,
                 hangupRequests := s.hangupRequests + 1 }
      else s
  | .verifyOk =>
      if 0 < s.pendingVerify then
        transition
          { s with pendingVerify := s.pendingVerify - 1, reader := true,
                   readerCreations := s.readerCreations + 1 }
          .ready
      else s
  | .verifyInvalid =>
      if 0 < s.pendingVerify then
        { s with pendingVerify := s.pendingVerify - 1 }
      else s
  | .verifyOther =>
      if 0 < s.pendingVerify then
        { s with pendingVerify := s.pendingVerify - 1,
                 hangupRequests := s.hangupRequests + 1 }
      else s
  | .submitOk =>
      if 0 < s.pendingSubmit then
        transition { s with pendingSubmit := s.pendingSubmit - 1 } .ready
      else s
  | .submitFail =>
      if 0 < s.pendingSubmit then
        { s with pendingSubmit := s.pendingSubmit - 1,
                 hangupRequests := s.hangupRequests + 1 }
      else s

/-- The session immediately after construction: machina performs the
initial transition into init, whose entry handler attaches both
listeners, clears the buffer and requests the answer. -/
def startSession : Session :=
  doEnter
    { state := .init, buffer := [], hungup := false, hangupSub := false,
      dtmfSub := false, pendingAnswer := false, pendingInit := 0,
      pendingVerify := 0, pendingSubmit := 0, mailbox := false,
      reader := false, readerCreations := 0, hangupRequests := 0,
      deferred := [], verifyCalls := [], readerOps := [] }

/-- Run a session over a list of events. -/
def run (g : Grammar) (s : Session) (evs : List Ev) : Session :=
  evs.foldl (step g) s

/-- A session configuration reachable from construction. -/
def Reachable (g : Grammar) (s : Session) : Prop :=
  ∃ evs, run g startSession evs = s

/-- The waitingForAuth entry of the configuration in tests.js. -/
def waEntry : GrammarEntry :=
  { regex := some (.digits 4, .authenticate), literal := fun _ => none }

/-- The changingFolder entry of the configuration in tests.js. -/
def cfEntry : GrammarEntry :=
  { regex := some (.digits 1, .submit),
    literal := fun i =>
      if i = "#" then some .previousMenu
      else if i = "*" then some .repeatMenu
      else none }

/-- The ready entry of the configuration in tests.js. -/
def readyEntry : GrammarEntry :=
  { regex := none,
    literal := fun i =>
      if i = "1" then some .first
      else if i = "2" then some .changeFolder
      else if i = "4" then some .prev
      else if i = "5" then some .replay
      else if i = "6" then some .next
      else if i = "7" then some .delete
      else if i = "#" then some .previousMenu
      else if i = "*" then some .repeatMenu
      else none }

/-- The input configuration supplied by tests.js getMockConfig
(inputs.mailboxReader): entries for waitingForAuth, changingFolder and
ready only. -/
def mockGrammar : Grammar := fun st =>
  match st with
  | .waitingForAuth => some waEntry
  | .changingFolder => some cfEntry
  | .ready => some readyEntry
  | _ => none

/-- An input-configuration entry for the auth state resolving any digit
to authenticate. The configuration is external (spec section 6); an entry
for auth is the configuration shape under which the deferral mechanism of
the auth state is exercised at all (spec sections 4.1 and 5). -/
def authEntry : GrammarEntry :=
  { regex := some (.digits 1, .authenticate), literal := fun _ => none }

/-- The configuration of tests.js extended with an auth entry, exercising
the deferred-action mechanism. -/
def authGrammar : Grammar := fun st =>
  match st with
  | .auth => some authEntry
  | _ => mockGrammar st

/-- An input-configuration entry for the auth state with the same
four-digit password pattern as waitingForAuth: the configuration shape
under which digits arriving during the auth initialization suspension are
buffered (spec section 5). -/
def authPwEntry : GrammarEntry :=
  { regex := some (.digits 4, .authenticate), literal := fun _ => none }

/-- The configuration of tests.js extended with the four-digit auth
entry. -/
def authPwGrammar : Grammar := fun st =>
  match st with
  | .auth => some authPwEntry
  | _ => mockGrammar st

example : (run mockGrammar startSession [.answerOk]).state = St.auth := by decide

example :
    (run mockGrammar startSession
      [.answerOk, .initOk, .dtmf '1', .dtmf '1', .dtmf '1', .dtmf '1',
       .verifyOk]).state = St.ready := by decide

example :
    (run mockGrammar startSession
      [.answerOk, .initOk, .dtmf '1', .dtmf '1', .dtmf '1', .dtmf '1',
       .verifyOk, .dtmf '2', .dtmf '3', .submitOk]).readerOps
      = [.changeFolder, .submitFolder "3"] := by decide

/-- Without a configuration entry for the current state, the dtmf handler
drops the symbol entirely. -/
lemma dtmfHandler_grammar_none (g : Grammar) (s : Session) (d : Char)
    (h : g s.state = none) : dtmfHandler g s d = s := by
  unfold dtmfHandler; rw [h]

/-- With an entry but no resolution, the dtmf handler only appends the
symbol to the buffer. -/
lemma dtmfHandler_unresolved (g : Grammar) (s : Session) (d : Char)
    (ent : GrammarEntry) (h : g s.state = some ent)
    (h2 : resolveAct ent ⟨s.buffer ++ [d]⟩ = none) :
    dtmfHandler g s d = { s with buffer := s.buffer ++ [d] } := by
  unfold dtmfHandler
  rw [h]
  show (match resolveAct ent ⟨s.buffer ++ [d]⟩ with
        | none => { s with buffer := s.buffer ++ [d] }
        | some a => handle { s with buffer := [] } a ⟨s.buffer ++ [d]⟩) = _
  rw [h2]

/-- With an entry and a resolved action, the dtmf handler clears the
buffer and hands the action with the joined input to the current state's
handler table. -/
lemma dtmfHandler_resolved (g : Grammar) (s : Session) (d : Char)
    (ent : GrammarEntry) (a : Action) (h : g s.state = some ent)
    (h2 : resolveAct ent ⟨s.buffer ++ [d]⟩ = some a) :
    dtmfHandler g s d = handle { s with buffer := [] } a ⟨s.buffer ++ [d]⟩ := by
  unfold dtmfHandler
  rw [h]
  show (match resolveAct ent ⟨s.buffer ++ [d]⟩ with
        | none => { s with buffer := s.buffer ++ [d] }
        | some a => handle { s with buffer := [] } a ⟨s.buffer ++ [d]⟩) = _
  rw [h2]

/-- A transition always lands in the requested state. -/
lemma transition_state (s : Session) (t : St) : (transition s t).state = t := by
  obtain ⟨st, buf, hu, h1, h2, pa, pi, pv, ps, mb, rd, rc, hr, df, vc, ro⟩ := s
  cases st <;> cases t <;> simp [transition, doExit, doEnter, drain]

/-- Fields a transition never touches. -/
lemma transition_frame (s : Session) (t : St) :
    (transition s t).hungup = s.hungup ∧
    (transition s t).reader = s.reader ∧
    (transition s t).readerCreations = s.readerCreations ∧
    (transition s t).readerOps = s.readerOps ∧
    (transition s t).hangupRequests = s.hangupRequests ∧
    (transition s t).mailbox = s.mailbox := by
  obtain ⟨st, buf, hu, h1, h2, pa, pi, pv, ps, mb, rd, rc, hr, df, vc, ro⟩ := s
  cases st <;> cases t <;> simp [transition, doExit, doEnter, drain]

/-- Fields an action handler never touches. -/
lemma handle_frame (s : Session) (a : Action) (arg : String) :
    (handle s a arg).hungup = s.hungup ∧
    (handle s a arg).hangupSub = s.hangupSub ∧
    (handle s a arg).dtmfSub = s.dtmfSub ∧
    (handle s a arg).reader = s.reader ∧
    (handle s a arg).readerCreations = s.readerCreations ∧
    (handle s a arg).pendingAnswer = s.pendingAnswer ∧
    (handle s a arg).pendingInit = s.pendingInit ∧
    (handle s a arg).hangupRequests = s.hangupRequests ∧
    (handle s a arg).mailbox = s.mailbox := by
  obtain ⟨st, buf, hu, h1, h2, pa, pi, pv, ps, mb, rd, rc, hr, df, vc, ro⟩ := s
  cases st <;> cases a <;>
    simp [handle, pushOp, transition, doExit, doEnter, drain]

/-- An action handler leaves the state unchanged unless it performs one of
the two transitions of the source (changeFolder and previousMenu). -/
lemma handle_state (s : Session) (a : Action) (arg : String) :
    (handle s a arg).state = s.state ∨
    (handle s a arg).state = St.changingFolder ∨
    (handle s a arg).state = St.ready := by
  obtain ⟨st, buf, hu, h1, h2, pa, pi, pv, ps, mb, rd, rc, hr, df, vc, ro⟩ := s
  cases st <;> cases a <;>
    simp [handle, pushOp, transition, doExit, doEnter, drain]

/-- An action handler on an empty buffer leaves the buffer empty. -/
lemma handle_buffer_empty (s : Session) (a : Action) (arg : String)
    (h : s.buffer = []) : (handle s a arg).buffer = [] := by
  obtain ⟨st, buf, hu, h1, h2, pa, pi, pv, ps, mb, rd, rc, hr, df, vc, ro⟩ := s
  cases h
  cases st <;> cases a <;>
    simp [handle, pushOp, transition, doExit, doEnter, drain]

/-- Fields the dtmf handler never touches. -/
lemma dtmfHandler_frame (g : Grammar) (s : Session) (d : Char) :
    (dtmfHandler g s d).hungup = s.hungup ∧
    (dtmfHandler g s d).hangupSub = s.hangupSub ∧
    (dtmfHandler g s d).dtmfSub = s.dtmfSub ∧
    (dtmfHandler g s d).reader = s.reader ∧
    (dtmfHandler g s d).readerCreations = s.readerCreations ∧
    (dtmfHandler g s d).pendingAnswer = s.pendingAnswer ∧
    (dtmfHandler g s d).pendingInit = s.pendingInit ∧
    (dtmfHandler g s d).hangupRequests = s.hangupRequests ∧
    (dtmfHandler g s d).mailbox = s.mailbox := by
  unfold dtmfHandler
  cases hg : g s.state with
  | none => simp
  | some ent =>
      cases ha : resolveAct ent ⟨s.buffer ++ [d]⟩ with
      | none => simp [ha]
      | some a =>
          simp only [ha]
          simpa using handle_frame { s with buffer := [] } a ⟨s.buffer ++ [d]⟩

/-- The dtmf handler either keeps the state or hands off to an action
handler whose possible states are known. -/
lemma dtmfHandler_state (g : Grammar) (s : Session) (d : Char) :
    (dtmfHandler g s d).state = s.state ∨
    (dtmfHandler g s d).state = St.changingFolder ∨
    (dtmfHandler g s d).state = St.ready := by
  unfold dtmfHandler
  cases hg : g s.state with
  | none => simp
  | some ent =>
      cases ha : resolveAct ent ⟨s.buffer ++ [d]⟩ with
      | none => simp [ha]
      | some a =>
          simp only [ha]
          simpa using handle_state { s with buffer := [] } a ⟨s.buffer ++ [d]⟩

/-- Every event either resolves through the dtmf handler, performs a
transition or only edits counters; a run preserves any property closed
under single steps. -/
lemma run_preserve {g : Grammar} (P : Session → Prop)
    (hs : ∀ s e, P s → P (step g s e)) :
    ∀ (l : List Ev) (s : Session), P s → P (run g s l) := by
  intro l
  induction l with
  | nil => intro s h; exact h
  | cons e t ih => intro s h; exact ih _ (hs _ _ h)

/-- Transitioning into done from elsewhere detaches both listeners. -/
lemma transition_done_subs (s : Session) (hne : s.state ≠ St.done) :
    (transition s St.done).hangupSub = false ∧
    (transition s St.done).dtmfSub = false := by
  obtain ⟨st, buf, hu, h1, h2, pa, pi, pv, ps, mb, rd, rc, hr, df, vc, ro⟩ := s
  cases st <;> simp_all [transition, doExit, doEnter, drain]

/-- One step preserves the invariant that the done state has both
listeners detached. -/
lemma doneDetached_step (g : Grammar) (s : Session) (e : Ev)
    (h : s.state = St.done → s.hangupSub = false ∧ s.dtmfSub = false) :
    (step g s e).state = St.done →
    (step g s e).hangupSub = false ∧ (step g s e).dtmfSub = false := by
  cases e with
  | dtmf d =>
      simp only [step]
      split
      · intro hdone
        rcases dtmfHandler_state g s d with hst | hst | hst
        · have hsd : s.state = St.done := hst.symm.trans hdone
          have := (h hsd).2
          simp_all
        · rw [hst] at hdone; cases hdone
        · rw [hst] at hdone; cases hdone
      · exact h
  | stasisEnd =>
      simp only [step]
      split
      · intro _
        by_cases hd : s.state = St.done
        · have := (h hd).1
          simp_all
        · exact transition_done_subs { s with hangupSub := false, hungup := true } hd
      · exact h
  | answerOk =>
      simp only [step]
      split
      · intro hdone; rw [transition_state] at hdone; cases hdone
      · exact h
  | answerFail =>
      simp only [step]
      split
      · intro _
        by_cases hd : s.state = St.done
        · have h2 := h hd
          simp_all [transition]
        · exact transition_done_subs { s with pendingAnswer := false } hd
      · exact h
  | initOk =>
      simp only [step]
      split
      · intro hdone; rw [transition_state] at hdone; cases hdone
      · exact h
  | initFail =>
      simp only [step]
      split
      · intro hdone; exact h hdone
      · exact h
  | verifyOk =>
      simp only [step]
      split
      · intro hdone; rw [transition_state] at hdone; cases hdone
      · exact h
  | verifyInvalid =>
      simp only [step]
      split
      · intro hdone; exact h hdone
      · exact h
  | verifyOther =>
      simp only [step]
      split
      · intro hdone; exact h hdone
      · exact h
  | submitOk =>
      simp only [step]
      split
      · intro hdone; rw [transition_state] at hdone; cases hdone
      · exact h
  | submitFail =>
      simp only [step]
      split
      · intro hdone; exact h hdone
      · exact h

/-- Every reachable session in done has both listeners detached. -/
lemma reach_done_detached (g : Grammar) (s : Session) (h : Reachable g s) :
    s.state = St.done → s.hangupSub = false ∧ s.dtmfSub = false := by
  obtain ⟨evs, rfl⟩ := h
  refine run_preserve
    (fun u => u.state = St.done → u.hangupSub = false ∧ u.dtmfSub = false)
    (fun u e hu => doneDetached_step g u e hu) evs startSession ?_
  intro h0
  simp [startSession, doEnter] at h0

/-- Transitioning to a genuinely different state leaves an empty buffer,
provided the states without an exit clearing (init, auth, done) can only
hold an empty buffer. -/
lemma transition_buffer_all (s : Session) (t : St)
    (h : s.state = St.init ∨ s.state = St.auth ∨ s.state = St.done →
      s.buffer = [])
    (hne : s.state ≠ t) : (transition s t).buffer = [] := by
  obtain ⟨st, buf, hu, h1, h2, pa, pi, pv, ps, mb, rd, rc, hr, df, vc, ro⟩ := s
  cases st <;> cases t <;> simp_all [transition, doExit, doEnter, drain]

/-- Any transition result satisfies the buffer invariant: either the
transition was a no-op, or the exit clearing and the invariant for the
states without one leave the buffer empty. -/
lemma transition_bufferInv (s : Session) (t : St)
    (h : s.state = St.init ∨ s.state = St.auth ∨ s.state = St.done →
      s.buffer = []) :
    (transition s t).state = St.init ∨ (transition s t).state = St.auth ∨
      (transition s t).state = St.done → (transition s t).buffer = [] := by
  by_cases hne : s.state = t
  · simp only [transition, if_pos hne]; exact h
  · intro _; exact transition_buffer_all s t h hne

/-- One step of the session, under any configuration without entries for
init, auth and done (the three states whose exits do not clear the
buffer; the configuration of tests.js is one such), preserves the
invariant that the buffer is empty in init, auth and done. -/
lemma bufferInv_step (g : Grammar) (s : Session) (e : Ev)
    (hInit : g St.init = none) (hAuth : g St.auth = none)
    (hDone : g St.done = none)
    (h : s.state = St.init ∨ s.state = St.auth ∨ s.state = St.done →
      s.buffer = []) :
    (step g s e).state = St.init ∨
      (step g s e).state = St.auth ∨
      (step g s e).state = St.done →
    (step g s e).buffer = [] := by
  cases e with
  | dtmf d =>
      simp only [step]
      split
      · intro hant
        rcases dtmfHandler_state g s d with hst | hst | hst
        · rw [hst] at hant
          have hg : g s.state = none := by
            rcases hant with h1 | h1 | h1 <;> rw [h1]
            · exact hInit
            · exact hAuth
            · exact hDone
          have hid : dtmfHandler g s d = s :=
            dtmfHandler_grammar_none g s d hg
          rw [hid]; exact h hant
        · rw [hst] at hant; rcases hant with h1 | h1 | h1 <;> cases h1
        · rw [hst] at hant; rcases hant with h1 | h1 | h1 <;> cases h1
      · exact h
  | stasisEnd =>
      simp only [step]
      split
      · exact transition_bufferInv _ _ h
      · exact h
  | answerOk =>
      simp only [step]
      split
      · exact transition_bufferInv _ _ h
      · exact h
  | answerFail =>
      simp only [step]
      split
      · exact transition_bufferInv _ _ h
      · exact h
  | initOk =>
      simp only [step]
      split
      · exact transition_bufferInv _ _ h
      · exact h
  | initFail =>
      simp only [step]
      split
      · exact h
      · exact h
  | verifyOk =>
      simp only [step]
      split
      · exact transition_bufferInv _ _ h
      · exact h
  | verifyInvalid =>
      simp only [step]
      split
      · exact h
      · exact h
  | verifyOther =>
      simp only [step]
      split
      · exact h
      · exact h
  | submitOk =>
      simp only [step]
      split
      · exact transition_bufferInv _ _ h
      · exact h
  | submitFail =>
      simp only [step]
      split
      · exact h
      · exact h

/-- Every reachable session, under any configuration without entries for
init, auth and done, has an empty buffer while in init, auth or done. -/
lemma reach_buffer_core (g : Grammar) (s : Session)
    (hInit : g St.init = none) (hAuth : g St.auth = none)
    (hDone : g St.done = none) (h : Reachable g s) :
    s.state = St.init ∨ s.state = St.auth ∨ s.state = St.done →
    s.buffer = [] := by
  obtain ⟨evs, rfl⟩ := h
  refine run_preserve
    (fun u => u.state = St.init ∨ u.state = St.auth ∨ u.state = St.done →
      u.buffer = [])
    (fun u e hu => bufferInv_step g u e hInit hAuth hDone hu) evs
    startSession ?_
  intro _
  rfl

/-- A session with both listeners detached and no operation in flight is
inert: every event is the identity. -/
lemma step_noop_of_idle (g : Grammar) (s : Session)
    (h1 : s.hangupSub = false) (h2 : s.dtmfSub = false)
    (h3 : s.pendingAnswer = false) (h4 : s.pendingInit = 0)
    (h5 : s.pendingVerify = 0) (h6 : s.pendingSubmit = 0) :
    ∀ e, step g s e = s := by
  intro e
  cases e <;> simp [step, h1, h2, h3, h4, h5, h6]

/-- Events other than a successful verification leave the reader handle
and the creation count untouched. -/
lemma step_reader_frame (g : Grammar) (s : Session) (e : Ev)
    (hne : e ≠ Ev.verifyOk) :
    (step g s e).reader = s.reader ∧
    (step g s e).readerCreations = s.readerCreations := by
  cases e with
  | dtmf d =>
      simp only [step]
      split
      · exact ⟨(dtmfHandler_frame g s d).2.2.2.1,
          (dtmfHandler_frame g s d).2.2.2.2.1⟩
      · exact ⟨rfl, rfl⟩
  | stasisEnd =>
      simp only [step]
      split
      · exact ⟨(transition_frame _ _).2.1, (transition_frame _ _).2.2.1⟩
      · exact ⟨rfl, rfl⟩
  | answerOk =>
      simp only [step]
      split
      · exact ⟨(transition_frame _ _).2.1, (transition_frame _ _).2.2.1⟩
      · exact ⟨rfl, rfl⟩
  | answerFail =>
      simp only [step]
      split
      · exact ⟨(transition_frame _ _).2.1, (transition_frame _ _).2.2.1⟩
      · exact ⟨rfl, rfl⟩
  | initOk =>
      simp only [step]
      split
      · exact ⟨(transition_frame _ _).2.1, (transition_frame _ _).2.2.1⟩
      · exact ⟨rfl, rfl⟩
  | initFail =>
      simp only [step]
      split
      · exact ⟨rfl, rfl⟩
      · exact ⟨rfl, rfl⟩
  | verifyOk => exact absurd rfl hne
  | verifyInvalid =>
      simp only [step]
      split
      · exact ⟨rfl, rfl⟩
      · exact ⟨rfl, rfl⟩
  | verifyOther =>
      simp only [step]
      split
      · exact ⟨rfl, rfl⟩
      · exact ⟨rfl, rfl⟩
  | submitOk =>
      simp only [step]
      split
      · exact ⟨(transition_frame _ _).2.1, (transition_frame _ _).2.2.1⟩
      · exact ⟨rfl, rfl⟩
  | submitFail =>
      simp only [step]
      split
      · exact ⟨rfl, rfl⟩
      · exact ⟨rfl, rfl⟩

/-- Events other than a hangup notification leave the hungup flag
untouched: only the hangup handler assigns it. -/
lemma step_hungup_frame (g : Grammar) (s : Session) (e : Ev)
    (hne : e ≠ Ev.stasisEnd) : (step g s e).hungup = s.hungup := by
  cases e with
  | dtmf d =>
      simp only [step]
      split
      · exact (dtmfHandler_frame g s d).1
      · rfl
  | stasisEnd => exact absurd rfl hne
  | answerOk =>
      simp only [step]
      split
      · exact (transition_frame _ _).1
      · rfl
  | answerFail =>
      simp only [step]
      split
      · exact (transition_frame _ _).1
      · rfl
  | initOk =>
      simp only [step]
      split
      · exact (transition_frame _ _).1
      · rfl
  | initFail =>
      simp only [step]
      split
      · rfl
      · rfl
  | verifyOk =>
      simp only [step]
      split
      · exact (transition_frame _ _).1
      · rfl
  | verifyInvalid =>
      simp only [step]
      split
      · rfl
      · rfl
  | verifyOther =>
      simp only [step]
      split
      · rfl
      · rfl
  | submitOk =>
      simp only [step]
      split
      · exact (transition_frame _ _).1
      · rfl
  | submitFail =>
      simp only [step]
      split
      · rfl
      · rfl

/-- A step that changes the state ends with an empty buffer, for any
configuration, provided the states without an exit clearing hold an empty
buffer beforehand. -/
lemma step_buffer_of_ne (g : Grammar) (s : Session) (e : Ev)
    (hinv : s.state = St.init ∨ s.state = St.auth ∨ s.state = St.done →
      s.buffer = [])
    (hne : (step g s e).state ≠ s.state) :
    (step g s e).buffer = [] := by
  cases e with
  | dtmf d =>
      by_cases hds : s.dtmfSub = true
      · have hstep : step g s (Ev.dtmf d) = dtmfHandler g s d := by
          simp [step, hds]
        rw [hstep] at hne ⊢
        cases hg : g s.state with
        | none =>
            rw [dtmfHandler_grammar_none g s d hg] at hne
            exact absurd rfl hne
        | some ent =>
            cases hra : resolveAct ent ⟨s.buffer ++ [d]⟩ with
            | none =>
                rw [dtmfHandler_unresolved g s d ent hg hra] at hne
                exact absurd rfl hne
            | some a =>
                rw [dtmfHandler_resolved g s d ent a hg hra]
                exact handle_buffer_empty _ _ _ rfl
      · have hstep : step g s (Ev.dtmf d) = s := by simp [step, hds]
        rw [hstep] at hne; exact absurd rfl hne
  | stasisEnd =>
      by_cases hg : s.hangupSub = true
      · have hstep : step g s Ev.stasisEnd
            = transition { s with hangupSub := false, hungup := true } St.done := by
          simp [step, hg]
        rw [hstep] at hne ⊢
        by_cases hd : s.state = St.done
        · have hid : transition { s with hangupSub := false, hungup := true } St.done
              = { s with hangupSub := false, hungup := true } := by
            simp [transition, hd]
          rw [hid] at hne; exact absurd rfl hne
        · exact transition_buffer_all _ _ hinv hd
      · have hstep : step g s Ev.stasisEnd = s := by simp [step, hg]
        rw [hstep] at hne; exact absurd rfl hne
  | answerOk =>
      by_cases hg : s.pendingAnswer = true
      · have hstep : step g s Ev.answerOk
            = transition { s with pendingAnswer := false } St.auth := by
          simp [step, hg]
        rw [hstep] at hne ⊢
        by_cases hd : s.state = St.auth
        · have hid : transition { s with pendingAnswer := false } St.auth
              = { s with pendingAnswer := false } := by
            simp [transition, hd]
          rw [hid] at hne; exact absurd rfl hne
        · exact transition_buffer_all _ _ hinv hd
      · have hstep : step g s Ev.answerOk = s := by simp [step, hg]
        rw [hstep] at hne; exact absurd rfl hne
  | answerFail =>
      by_cases hg : s.pendingAnswer = true
      · have hstep : step g s Ev.answerFail
            = transition { s with pendingAnswer := false } St.done := by
          simp [step, hg]
        rw [hstep] at hne ⊢
        by_cases hd : s.state = St.done
        · have hid : transition { s with pendingAnswer := false } St.done
              = { s with pendingAnswer := false } := by
            simp [transition, hd]
          rw [hid] at hne; exact absurd rfl hne
        · exact transition_buffer_all _ _ hinv hd
      · have hstep : step g s Ev.answerFail = s := by simp [step, hg]
        rw [hstep] at hne; exact absurd rfl hne
  | initOk =>
      by_cases hg : 0 < s.pendingInit
      · have hstep : step g s Ev.initOk
            = transition { s with pendingInit := s.pendingInit - 1, mailbox := true }
                St.waitingForAuth := by
          simp [step, hg]
        rw [hstep] at hne ⊢
        by_cases hd : s.state = St.waitingForAuth
        · have hid : transition { s with pendingInit := s.pendingInit - 1, mailbox := true }
              St.waitingForAuth
              = { s with pendingInit := s.pendingInit - 1, mailbox := true } := by
            simp [transition, hd]
          rw [hid] at hne; exact absurd rfl hne
        · exact transition_buffer_all _ _ hinv hd
      · have hstep : step g s Ev.initOk = s := by simp [step, hg]
        rw [hstep] at hne; exact absurd rfl hne
  | initFail =>
      by_cases hg : 0 < s.pendingInit
      · have hstep : step g s Ev.initFail
            = { s with pendingInit := s.pendingInit - 1,
                       hangupRequests := s.hangupRequests + 1 } := by
          simp [step, hg]
        rw [hstep] at hne; exact absurd rfl hne
      · have hstep : step g s Ev.initFail = s := by simp [step, hg]
        rw [hstep] at hne; exact absurd rfl hne
  | verifyOk =>
      by_cases hg : 0 < s.pendingVerify
      · have hstep : step g s Ev.verifyOk
            = transition
                { s with
                  pendingVerify := s.pendingVerify - 1,
                  reader := true,
                  readerCreations := s.readerCreations + 1 } St.ready := by
          simp [step, hg]
        rw [hstep] at hne ⊢
        by_cases hd : s.state = St.ready
        · have hid : transition
              { s with
                pendingVerify := s.pendingVerify - 1,
                reader := true,
                readerCreations := s.readerCreations + 1 } St.ready
              = { s with
                  pendingVerify := s.pendingVerify - 1,
                  reader := true,
                  readerCreations := s.readerCreations + 1 } := by
            simp [transition, hd]
          rw [hid] at hne; exact absurd rfl hne
        · exact transition_buffer_all _ _ hinv hd
      · have hstep : step g s Ev.verifyOk = s := by simp [step, hg]
        rw [hstep] at hne; exact absurd rfl hne
  | verifyInvalid =>
      by_cases hg : 0 < s.pendingVerify
      · have hstep : step g s Ev.verifyInvalid
            = { s with pendingVerify := s.pendingVerify - 1 } := by
          simp [step, hg]
        rw [hstep] at hne; exact absurd rfl hne
      · have hstep : step g s Ev.verifyInvalid = s := by simp [step, hg]
        rw [hstep] at hne; exact absurd rfl hne
  | verifyOther =>
      by_cases hg : 0 < s.pendingVerify
      · have hstep : step g s Ev.verifyOther
            = { s with pendingVerify := s.pendingVerify - 1,
                       hangupRequests := s.hangupRequests + 1 } := by
          simp [step, hg]
        rw [hstep] at hne; exact absurd rfl hne
      · have hstep : step g s Ev.verifyOther = s := by simp [step, hg]
        rw [hstep] at hne; exact absurd rfl hne
  | submitOk =>
      by_cases hg : 0 < s.pendingSubmit
      · have hstep : step g s Ev.submitOk
            = transition { s with pendingSubmit := s.pendingSubmit - 1 } St.ready := by
          simp [step, hg]
        rw [hstep] at hne ⊢
        by_cases hd : s.state = St.ready
        · have hid : transition { s with pendingSubmit := s.pendingSubmit - 1 } St.ready
              = { s with pendingSubmit := s.pendingSubmit - 1 } := by
            simp [transition, hd]
          rw [hid] at hne; exact absurd rfl hne
        · exact transition_buffer_all _ _ hinv hd
      · have hstep : step g s Ev.submitOk = s := by simp [step, hg]
        rw [hstep] at hne; exact absurd rfl hne
  | submitFail =>
      by_cases hg : 0 < s.pendingSubmit
      · have hstep : step g s Ev.submitFail
            = { s with pendingSubmit := s.pendingSubmit - 1,
                       hangupRequests := s.hangupRequests + 1 } := by
          simp [step, hg]
        rw [hstep] at hne; exact absurd rfl hne
      · have hstep : step g s Ev.submitFail = s := by simp [step, hg]
        rw [hstep] at hne; exact absurd rfl hne

/-- C1 counterexample: done is not terminal against an in-flight answer.
A hangup notification during init moves the session to done, but when the
answer operation that was in flight then succeeds, its continuation
transitions the session out of done into auth: a state transition occurs
after done and the auth state is entered after the terminal state. -/
theorem C1_counterexample :
    (run mockGrammar startSession [Ev.stasisEnd]).state = St.done ∧
    (run mockGrammar startSession [Ev.stasisEnd]).pendingAnswer = true ∧
    (run mockGrammar startSession [Ev.stasisEnd, Ev.answerOk]).state
      = St.auth := by
  decide

/-- C1 (amended): once done has been entered, actions dispatched through
the handler table are ignored, and, because entering done detaches both
listeners, keypad and hangup events are ignored; provided no suspended
operation is in flight, every event whatsoever is ignored. (The
completion of an operation that was still in flight when done was entered
is not ignored: its continuation can transition the session out of done,
as the counterexample shows.) -/
theorem C1_done_terminal_amended (s : Session)
    (hr : Reachable mockGrammar s) (hd : s.state = St.done)
    (hA : s.pendingAnswer = false) (hI : s.pendingInit = 0)
    (hV : s.pendingVerify = 0) (hS : s.pendingSubmit = 0) :
    (∀ a arg, handle s a arg = s) ∧ ∀ e, step mockGrammar s e = s := by
  obtain ⟨hHS, hDS⟩ := reach_done_detached mockGrammar s hr hd
  constructor
  · intro a arg
    unfold handle
    split <;> simp_all
  · exact step_noop_of_idle mockGrammar s hHS hDS hA hI hV hS

/-- C1 witness: the session that reached done through an answer failure
has nothing in flight, and a later keypad event is ignored. -/
theorem C1_done_terminal_amended_witness :
    step mockGrammar (run mockGrammar startSession [Ev.answerFail])
        (Ev.dtmf '1')
      = run mockGrammar startSession [Ev.answerFail] :=
  (C1_done_terminal_amended (run mockGrammar startSession [Ev.answerFail])
    ⟨[Ev.answerFail], rfl⟩ rfl rfl rfl rfl rfl).2 (Ev.dtmf '1')

/-- C2 counterexample: the resolver uses the unanchored JavaScript match,
not an entire-buffer match. In waitingForAuth under the configuration of
tests.js, the buffer content built from the symbols hash 1 1 1 1 does not
entirely match the four-digit pattern and is not a literal key, yet the
code resolves authenticate with the full buffer as argument (sending the
password with the leading hash to the auth service) and clears the
buffer, because the four-digit pattern matches a substring. -/
theorem C2_counterexample :
    (run mockGrammar startSession
      [Ev.answerOk, Ev.initOk, Ev.dtmf '#', Ev.dtmf '1', Ev.dtmf '1',
       Ev.dtmf '1']).state = St.waitingForAuth ∧
    (run mockGrammar startSession
      [Ev.answerOk, Ev.initOk, Ev.dtmf '#', Ev.dtmf '1', Ev.dtmf '1',
       Ev.dtmf '1']).buffer = ['#', '1', '1', '1'] ∧
    entireMatch (RePat.digits 4) "#1111" = false ∧
    waEntry.literal "#1111" = none ∧
    jsMatch (RePat.digits 4) "#1111" = true ∧
    (run mockGrammar startSession
      [Ev.answerOk, Ev.initOk, Ev.dtmf '#', Ev.dtmf '1', Ev.dtmf '1',
       Ev.dtmf '1', Ev.dtmf '1']).verifyCalls = ["#1111"] ∧
    (run mockGrammar startSession
      [Ev.answerOk, Ev.initOk, Ev.dtmf '#', Ev.dtmf '1', Ev.dtmf '1',
       Ev.dtmf '1', Ev.dtmf '1']).buffer = [] := by
  decide

/-- C2 (amended): for every state with a configuration entry and every
received keypad symbol, the symbol is appended to the buffer and then:
if the entry has a pattern rule and the pattern matches the buffer under
the unanchored JavaScript match (rather than only when the entire buffer
matches), the pattern rule's action resolves with the full buffer content
as argument; otherwise, if the buffer content is a literal key, that
action resolves with the same argument; otherwise no action resolves and
the buffer is retained. -/
theorem C2_resolver_amended (g : Grammar) (s : Session) (d : Char)
    (ent : GrammarEntry) (hsub : s.dtmfSub = true)
    (hent : g s.state = some ent) :
    (∀ p a, ent.regex = some (p, a) →
        jsMatch p ⟨s.buffer ++ [d]⟩ = true →
        step g s (Ev.dtmf d)
          = handle { s with buffer := [] } a ⟨s.buffer ++ [d]⟩) ∧
    (∀ a, (∀ p a0, ent.regex = some (p, a0) →
          jsMatch p ⟨s.buffer ++ [d]⟩ = false) →
        ent.literal ⟨s.buffer ++ [d]⟩ = some a →
        step g s (Ev.dtmf d)
          = handle { s with buffer := [] } a ⟨s.buffer ++ [d]⟩) ∧
    ((∀ p a0, ent.regex = some (p, a0) →
          jsMatch p ⟨s.buffer ++ [d]⟩ = false) →
        ent.literal ⟨s.buffer ++ [d]⟩ = none →
        step g s (Ev.dtmf d) = { s with buffer := s.buffer ++ [d] }) := by
  have hstep : step g s (Ev.dtmf d) = dtmfHandler g s d := by
    simp [step, hsub]
  refine ⟨?_, ?_, ?_⟩
  · intro p a hre hm
    rw [hstep]
    refine dtmfHandler_resolved g s d ent a hent ?_
    simp [resolveAct, hre, hm]
  · intro a hre hlit
    rw [hstep]
    refine dtmfHandler_resolved g s d ent a hent ?_
    cases hreg : ent.regex with
    | none => simp [resolveAct, hreg, hlit]
    | some pa =>
        obtain ⟨p, a0⟩ := pa
        simp [resolveAct, hreg, hre p a0 hreg, hlit]
  · intro hre hlit
    rw [hstep]
    refine dtmfHandler_unresolved g s d ent hent ?_
    cases hreg : ent.regex with
    | none => simp [resolveAct, hreg, hlit]
    | some pa =>
        obtain ⟨p, a0⟩ := pa
        simp [resolveAct, hreg, hre p a0 hreg, hlit]

/-- C2 witness: in waitingForAuth with three buffered ones, a fourth one
matches the four-digit pattern and resolves authenticate with the joined
buffer as argument. -/
theorem C2_resolver_amended_witness :
    step mockGrammar
        { startSession with state := St.waitingForAuth,
                            buffer := ['1', '1', '1'] } (Ev.dtmf '1')
      = handle
          { startSession with state := St.waitingForAuth, buffer := [] }
          Action.authenticate ⟨['1', '1', '1'] ++ ['1']⟩ :=
  (C2_resolver_amended mockGrammar
      { startSession with state := St.waitingForAuth,
                          buffer := ['1', '1', '1'] } '1' waEntry rfl rfl).1
    (RePat.digits 4) Action.authenticate rfl (by decide)

/-- C3 counterexample: the buffer is not cleared on every state exit and
can persist across a state change. The auth state has no exit handler
clearing the buffer; with a configuration carrying the four-digit pattern
on auth (the shape under which digits arriving during the auth
initialization suspension are buffered, spec section 5), two digits
buffered in auth survive the auth to waitingForAuth transition performed
by the initialization success, so waitingForAuth is entered with a
non-empty buffer holding symbols that arrived before entry. -/
theorem C3_counterexample :
    (run authPwGrammar startSession
      [Ev.answerOk, Ev.dtmf '1', Ev.dtmf '2']).state = St.auth ∧
    (run authPwGrammar startSession
      [Ev.answerOk, Ev.dtmf '1', Ev.dtmf '2']).buffer = ['1', '2'] ∧
    (run authPwGrammar startSession
      [Ev.answerOk, Ev.dtmf '1', Ev.dtmf '2', Ev.initOk]).state
      = St.waitingForAuth ∧
    (run authPwGrammar startSession
      [Ev.answerOk, Ev.dtmf '1', Ev.dtmf '2', Ev.initOk]).buffer
      = ['1', '2'] := by
  decide

/-- C3 (amended): the buffer is cleared the instant an action resolves
(before the handler executes) and on exit of waitingForAuth, ready and
changingFolder, the states with an exit handler; init, auth and done have
none. Consequently, for every configuration without entries for init,
auth and done (the repository's configuration in tests.js is one such),
every reachable session ends any state-changing step with an empty buffer
(so every state is entered with an empty buffer), and a keypad step
either resolves (ending with an empty buffer, cleared before the handler
ran), appends exactly the received symbol, or leaves the buffer untouched
(no configuration entry). With a configuration entry for auth the
buffered symbols instead persist across the auth to waitingForAuth state
change, as the counterexample shows. -/
theorem C3_buffer_lifecycle (g : Grammar) (s : Session)
    (hInit : g St.init = none) (hAuth : g St.auth = none)
    (hDone : g St.done = none) (hr : Reachable g s) :
    (∀ e, (step g s e).state ≠ s.state →
        (step g s e).buffer = []) ∧
    (∀ d, (step g s (Ev.dtmf d)).buffer = [] ∨
        (step g s (Ev.dtmf d)).buffer = s.buffer ++ [d] ∨
        (step g s (Ev.dtmf d)).buffer = s.buffer) := by
  have hinv := reach_buffer_core g s hInit hAuth hDone hr
  constructor
  · intro e hne
    exact step_buffer_of_ne g s e hinv hne
  · intro d
    by_cases hds : s.dtmfSub = true
    · have hstep : step g s (Ev.dtmf d) = dtmfHandler g s d := by
        simp [step, hds]
      rw [hstep]
      cases hg : g s.state with
      | none => right; right; rw [dtmfHandler_grammar_none g s d hg]
      | some ent =>
          cases hra : resolveAct ent ⟨s.buffer ++ [d]⟩ with
          | none =>
              right; left
              rw [dtmfHandler_unresolved g s d ent hg hra]
          | some a =>
              left
              rw [dtmfHandler_resolved g s d ent a hg hra]
              exact handle_buffer_empty _ _ _ rfl
    · right; right; simp [step, hds]

/-- C3 witness: under the configuration of tests.js (no entries for init,
auth, done), a first keypad symbol in the initial state is dropped,
appended or cleared according to the theorem. -/
theorem C3_buffer_lifecycle_witness :
    (step mockGrammar startSession (Ev.dtmf '1')).buffer = [] ∨
    (step mockGrammar startSession (Ev.dtmf '1')).buffer
      = startSession.buffer ++ ['1'] ∨
    (step mockGrammar startSession (Ev.dtmf '1')).buffer
      = startSession.buffer :=
  (C3_buffer_lifecycle mockGrammar startSession rfl rfl rfl ⟨[], rfl⟩).2 '1'

/-- C4 counterexample: the deferral queue holds more than one pair. With
an input-configuration entry for auth resolving single digits to
authenticate, two digits received while auth's initialization is in
flight produce two queued (authenticate, argument) pairs at once,
refuting the claim that the slot holds at most one pair at any time. -/
theorem C4_counterexample :
    (run authGrammar startSession
      [Ev.answerOk, Ev.dtmf '1', Ev.dtmf '2']).deferred
      = [(Action.authenticate, "1"), (Action.authenticate, "2")] ∧
    1 < (run authGrammar startSession
      [Ev.answerOk, Ev.dtmf '1', Ev.dtmf '2']).deferred.length := by
  decide

/-- C4 (amended): an authenticate action handled while the session is in
auth is appended to the deferral queue (which may thereby hold several
pairs); entering waitingForAuth empties the whole queue, replaying every
queued authenticate pair exactly once within the transition itself,
before any further event is processed: each replay starts one
verification carrying the stored argument. -/
theorem C4_defer_amended (s : Session) (arg : String)
    (hst : s.state = St.auth) :
    handle s Action.authenticate arg
      = { s with deferred := s.deferred ++ [(Action.authenticate, arg)] } ∧
    (transition s St.waitingForAuth).deferred = [] ∧
    (transition s St.waitingForAuth).pendingVerify
      = s.pendingVerify
        + (s.deferred.filter (fun p => p.1 == Action.authenticate)).length ∧
    (transition s St.waitingForAuth).verifyCalls
      = s.verifyCalls
        ++ (s.deferred.filter (fun p => p.1 == Action.authenticate)).map
            (fun p => p.2) := by
  obtain ⟨st, buf, hu, h1, h2, pa, pi, pv, ps, mb, rd, rc, hr, df, vc, ro⟩ := s
  cases st <;> simp_all [handle, transition, doExit, doEnter, drain]

/-- C4 witness: a deferred pair in auth is replayed as one verification
on entering waitingForAuth. -/
theorem C4_defer_amended_witness :
    handle { startSession with state := St.auth } Action.authenticate "1234"
      = { startSession with state := St.auth,
                            deferred := [(Action.authenticate, "1234")] } :=
  (C4_defer_amended { startSession with state := St.auth } "1234" rfl).1

/-- C5: in waitingForAuth with a verification in flight, an
invalid-credential failure leaves the session in waitingForAuth with the
reader unchanged and no hangup requested, and a subsequent authenticate
that succeeds sends the password to the auth service, creates the reader
and transitions to ready; any other failure kind requests a hangup while
the session stays in waitingForAuth, and the subsequent hangup
notification drives it to done. -/
theorem C5_verify_failures (g : Grammar) (s : Session) (pw : String)
    (hst : s.state = St.waitingForAuth) (hpv : 0 < s.pendingVerify)
    (hhs : s.hangupSub = true) :
    ((step g s Ev.verifyInvalid).state = St.waitingForAuth ∧
     (step g s Ev.verifyInvalid).reader = s.reader ∧
     (step g s Ev.verifyInvalid).readerCreations = s.readerCreations ∧
     (step g s Ev.verifyInvalid).hangupRequests = s.hangupRequests) ∧
    ((handle (step g s Ev.verifyInvalid) Action.authenticate pw).verifyCalls
       = s.verifyCalls ++ [pw] ∧
     (step g (handle (step g s Ev.verifyInvalid) Action.authenticate pw)
        Ev.verifyOk).state = St.ready ∧
     (step g (handle (step g s Ev.verifyInvalid) Action.authenticate pw)
        Ev.verifyOk).reader = true ∧
     (step g (handle (step g s Ev.verifyInvalid) Action.authenticate pw)
        Ev.verifyOk).readerCreations = s.readerCreations + 1) ∧
    ((step g s Ev.verifyOther).state = St.waitingForAuth ∧
     (step g s Ev.verifyOther).reader = s.reader ∧
     (step g s Ev.verifyOther).readerCreations = s.readerCreations ∧
     (step g s Ev.verifyOther).hangupRequests = s.hangupRequests + 1 ∧
     (step g (step g s Ev.verifyOther) Ev.stasisEnd).state = St.done) := by
  obtain ⟨st, buf, hu, h1, h2, pa, pi, pv, ps, mb, rd, rc, hr, df, vc, ro⟩ := s
  cases st <;>
    simp_all [step, handle, transition, doExit, doEnter, drain, pushOp]

/-- C5 witness: a concrete waitingForAuth session with one verification
in flight behaves as the theorem states on an invalid credential. -/
theorem C5_verify_failures_witness :
    (step mockGrammar
        { startSession with state := St.waitingForAuth, pendingVerify := 1 }
        Ev.verifyInvalid).state = St.waitingForAuth :=
  (C5_verify_failures mockGrammar
      { startSession with state := St.waitingForAuth, pendingVerify := 1 }
      "1111" rfl (by decide) rfl).1.1

/-- C6: in changingFolder, submit records the asynchronous submitFolder
request with its option and stays in changingFolder until the result:
success transitions to ready while failure requests a hangup and stays;
previousMenu invokes the reader's previousMenu and transitions to ready;
repeatMenu invokes the reader's repeatMenu and stays in changingFolder. -/
theorem C6_changingFolder (g : Grammar) (s : Session) (opt arg : String)
    (hst : s.state = St.changingFolder) (hps : 0 < s.pendingSubmit) :
    (handle s Action.submit opt).state = St.changingFolder ∧
    (handle s Action.submit opt).pendingSubmit = s.pendingSubmit + 1 ∧
    (handle s Action.submit opt).readerOps
      = s.readerOps ++ [ReaderOp.submitFolder opt] ∧
    (step g s Ev.submitOk).state = St.ready ∧
    (step g s Ev.submitFail).state = St.changingFolder ∧
    (step g s Ev.submitFail).hangupRequests = s.hangupRequests + 1 ∧
    (handle s Action.previousMenu arg).state = St.ready ∧
    (handle s Action.previousMenu arg).readerOps
      = s.readerOps ++ [ReaderOp.previousMenu] ∧
    (handle s Action.repeatMenu arg).state = St.changingFolder ∧
    (handle s Action.repeatMenu arg).readerOps
      = s.readerOps ++ [ReaderOp.repeatMenu] := by
  obtain ⟨st, buf, hu, h1, h2, pa, pi, pv, ps, mb, rd, rc, hr, df, vc, ro⟩ := s
  cases st <;>
    simp_all [step, handle, transition, doExit, doEnter, drain, pushOp]

/-- C6 witness: a concrete changingFolder session submits and returns to
ready on success. -/
theorem C6_changingFolder_witness :
    (step mockGrammar
        { startSession with state := St.changingFolder, pendingSubmit := 1 }
        Ev.submitOk).state = St.ready :=
  (C6_changingFolder mockGrammar
      { startSession with state := St.changingFolder, pendingSubmit := 1 }
      "1" "" rfl (by decide)).2.2.2.1

/-- C7: on construction the session is in init with both subscriptions
attached and the answer requested; answer success transitions to auth;
answer failure transitions directly to done with the hungup flag unset
and without any hangup request, and the resulting session ignores every
further event, so no hangup is ever requested on this path. -/
theorem C7_init_answer :
    startSession.state = St.init ∧
    startSession.hangupSub = true ∧
    startSession.dtmfSub = true ∧
    startSession.pendingAnswer = true ∧
    (step mockGrammar startSession Ev.answerOk).state = St.auth ∧
    (step mockGrammar startSession Ev.answerFail).state = St.done ∧
    (step mockGrammar startSession Ev.answerFail).hungup = false ∧
    (step mockGrammar startSession Ev.answerFail).hangupRequests = 0 ∧
    ∀ e, step mockGrammar (step mockGrammar startSession Ev.answerFail) e
          = step mockGrammar startSession Ev.answerFail := by
  refine ⟨rfl, rfl, rfl, rfl, by decide, by decide, by decide, by decide, ?_⟩
  exact step_noop_of_idle mockGrammar _ rfl rfl rfl rfl rfl rfl

/-- C8 counterexample: the reader is created twice. In waitingForAuth two
four-digit passwords entered back to back start two overlapping
verifications; when both succeed, each continuation creates a reader, so
over the session lifetime the reader is created twice. -/
theorem C8_counterexample :
    (run mockGrammar startSession
      [Ev.answerOk, Ev.initOk, Ev.dtmf '1', Ev.dtmf '1', Ev.dtmf '1',
       Ev.dtmf '1', Ev.dtmf '1', Ev.dtmf '1', Ev.dtmf '1', Ev.dtmf '1',
       Ev.verifyOk, Ev.verifyOk]).readerCreations = 2 ∧
    (run mockGrammar startSession
      [Ev.answerOk, Ev.initOk, Ev.dtmf '1', Ev.dtmf '1', Ev.dtmf '1',
       Ev.dtmf '1', Ev.dtmf '1', Ev.dtmf '1', Ev.dtmf '1', Ev.dtmf '1',
       Ev.verifyOk, Ev.verifyOk]).state = St.ready := by
  decide

/-- C8 (amended): the reader handle stays absent until a verification in
flight completes successfully, and the reader is created exactly once per
successful verification completion, so with overlapping verification
attempts it can be created more than once (the counterexample shows
twice). -/
theorem C8_reader_amended (g : Grammar) (s : Session) (e : Ev) :
    (s.reader = false →
      ((step g s e).reader = true ↔
        e = Ev.verifyOk ∧ 0 < s.pendingVerify)) ∧
    (step g s e).readerCreations
      = (if e = Ev.verifyOk ∧ 0 < s.pendingVerify
         then s.readerCreations + 1 else s.readerCreations) := by
  by_cases he : e = Ev.verifyOk
  · subst he
    by_cases hpv : 0 < s.pendingVerify
    · have hstep : step g s Ev.verifyOk
          = transition
              { s with
                pendingVerify := s.pendingVerify - 1,
                reader := true,
                readerCreations := s.readerCreations + 1 } St.ready := by
        simp [step, hpv]
      rw [hstep]
      have hf := transition_frame
        { s with
          pendingVerify := s.pendingVerify - 1,
          reader := true,
          readerCreations := s.readerCreations + 1 } St.ready
      constructor
      · intro _
        rw [hf.2.1]
        simp [hpv]
      · rw [if_pos ⟨rfl, hpv⟩]
        exact hf.2.2.1
    · have hstep : step g s Ev.verifyOk = s := by simp [step, hpv]
      rw [hstep]
      constructor
      · intro hrd
        rw [hrd]
        simp [hpv]
      · rw [if_neg]
        rintro ⟨_, h⟩
        exact hpv h
  · have hf := step_reader_frame g s e he
    constructor
    · intro hrd
      rw [hf.1, hrd]
      simp [he]
    · rw [hf.2, if_neg]
      rintro ⟨h1, _⟩
      exact he h1

/-- C8 witness: with no verification in flight a successful verification
event cannot create the reader. -/
theorem C8_reader_amended_witness :
    (step mockGrammar startSession Ev.verifyOk).reader = true ↔
      Ev.verifyOk = Ev.verifyOk ∧ 0 < startSession.pendingVerify :=
  (C8_reader_amended mockGrammar startSession Ev.verifyOk).1 rfl

/-- C9: a keypad symbol received while the current state has no entry in
the input configuration is dropped entirely: the session, including its
buffer, is unchanged and no action is handled. -/
theorem C9_drop_without_grammar (g : Grammar) (s : Session) (d : Char)
    (h : g s.state = none) : step g s (Ev.dtmf d) = s := by
  by_cases hds : s.dtmfSub = true
  · have hid := dtmfHandler_grammar_none g s d h
    simp [step, hds, hid]
  · simp [step, hds]

/-- C9 witness: in init, which has no configuration entry, a digit is
dropped. -/
theorem C9_drop_without_grammar_witness :
    step mockGrammar startSession (Ev.dtmf '5') = startSession :=
  C9_drop_without_grammar mockGrammar startSession '5' rfl

/-- C10: the hungup flag is monotone (once true it stays true under every
event), it is changed by no event other than the hangup notification, and
the session that reaches done through an answer failure in init
terminates with hungup still false. -/
theorem C10_hungup_flag :
    (∀ (g : Grammar) (s : Session) (e : Ev),
        s.hungup = true → (step g s e).hungup = true) ∧
    (∀ (g : Grammar) (s : Session) (e : Ev),
        e ≠ Ev.stasisEnd → (step g s e).hungup = s.hungup) ∧
    (run mockGrammar startSession [Ev.answerFail]).state = St.done ∧
    (run mockGrammar startSession [Ev.answerFail]).hungup = false := by
  refine ⟨?_, ?_, by decide, by decide⟩
  · intro g s e h
    by_cases hne : e = Ev.stasisEnd
    · subst hne
      simp only [step]
      split
      · exact (transition_frame _ _).1
      · exact h
    · rw [step_hungup_frame g s e hne]
      exact h
  · intro g s e hne
    exact step_hungup_frame g s e hne

/-- C10 witness: a hung-up session stays hung up over a further event. -/
theorem C10_hungup_flag_witness :
    (step mockGrammar { startSession with hungup := true }
        Ev.answerOk).hungup = true :=
  C10_hungup_flag.1 mockGrammar { startSession with hungup := true }
    Ev.answerOk rfl

end VmFsm
